import Mathlib

/-!
Shallow embedding of `atm_controller.py` (AtmController repository).

The Python module defines:
* enums `TransactionType` and `ATMState`;
* abstract interfaces `BankSystemInterface` and `HardwareInterface`;
* concrete mocks `MockBankSystem` and `MockHardware`;
* the class `ATMController`, a session state machine holding
  `state`, `current_card`, `selected_account`, `transaction_history`
  plus references to a bank system and a hardware object.

The embedding makes all state explicit: a controller value carries the
bank-system state (type parameter `β`) and the hardware state (type
parameter `γ`); the two interfaces become structures of functions over
those states.  Python object mutation becomes functional update, and a
method returning `r` while mutating `self` becomes a function returning
`r × controller`.  Python string truthiness (`not self.current_card` is
true for both `None` and `""`) is modelled by `strTruthy`.
-/

namespace AtmController

/-- Python enum `TransactionType`. -/
inductive TransactionType where
  | BALANCE_INQUIRY
  | WITHDRAWAL
  | DEPOSIT
deriving DecidableEq, Repr

/-- Python enum `ATMState` (the `TRANSACTION_COMPLETED` member is declared
in the source even though no method ever assigns it). -/
inductive ATMState where
  | IDLE
  | CARD_INSERTED
  | PIN_VERIFIED
  | ACCOUNT_SELECTED
  | TRANSACTION_COMPLETED
deriving DecidableEq, Repr

/-- One account dictionary `{"number": ..., "name": ..., "balance": ...}`
as stored by `MockBankSystem` and returned by `get_accounts`. -/
structure Account where
  number : String
  name : String
  balance : Int
deriving DecidableEq, Repr

/-- One entry appended to `ATMController.transaction_history`. -/
structure TransactionRecord where
  type : TransactionType
  account : String
  amount : Int
  success : Bool
deriving DecidableEq, Repr

/-- `BankSystemInterface`: each method is a function of the bank state `β`;
`withdraw` and `deposit` may mutate the bank, so they also return a new
state.  (`verify_pin`, `get_accounts` and `get_balance` are reads.) -/
structure BankOps (β : Type) where
  verify_pin : β → String → String → Bool
  get_accounts : β → String → List Account
  get_balance : β → String → Int
  withdraw : β → String → Int → Bool × β
  deposit : β → String → Int → Bool × β

/-- `HardwareInterface` minus `read_card`, which `ATMController` never
calls.  Every call may mutate the hardware state `γ`. -/
structure HardwareOps (γ : Type) where
  eject_card : γ → Bool × γ
  dispense_cash : γ → Int → Bool × γ
  accept_cash : γ → Int × γ

/-- Python truthiness of an optional string: `None` and `""` are falsy. -/
def strTruthy : Option String → Bool
  | none => false
  | some s => decide (s ≠ "")

/-- The mutable fields of `ATMController`, together with the states of the
two collaborators it holds references to. -/
structure ATMController (β γ : Type) where
  state : ATMState
  current_card : Option String
  selected_account : Option String
  transaction_history : List TransactionRecord
  bank : β
  hw : γ
deriving DecidableEq, Repr

namespace ATMController

variable {β γ : Type}

/-- `ATMController.__init__`: state `IDLE`, no card, no account, empty
history. -/
def init (b : β) (g : γ) : ATMController β γ :=
  { state := ATMState.IDLE
    current_card := none
    selected_account := none
    transaction_history := []
    bank := b
    hw := g }

/-- `ATMController.insert_card`. -/
def insert_card (m : ATMController β γ) (card_number : String) :
    Bool × ATMController β γ :=
  if m.state ≠ ATMState.IDLE then (false, m)
  else
    (true, { m with current_card := some card_number
                    state := ATMState.CARD_INSERTED })

/-- `ATMController.enter_pin`.  The guard `not self.current_card` is the
Python truthiness test. -/
def enter_pin (B : BankOps β) (m : ATMController β γ) (pin : String) :
    Bool × ATMController β γ :=
  if m.state ≠ ATMState.CARD_INSERTED ∨ ¬ strTruthy m.current_card then
    (false, m)
  else if B.verify_pin m.bank (m.current_card.getD "") pin then
    (true, { m with state := ATMState.PIN_VERIFIED })
  else (false, m)

/-- `ATMController.get_available_accounts` (a read: it mutates nothing). -/
def get_available_accounts (B : BankOps β) (m : ATMController β γ) :
    List Account :=
  if m.state ≠ ATMState.PIN_VERIFIED ∨ ¬ strTruthy m.current_card then []
  else B.get_accounts m.bank (m.current_card.getD "")

/-- `ATMController.select_account`: scans the available accounts for a
matching number; the Python loop stores the id and switches state at the
first match. -/
def select_account (B : BankOps β) (m : ATMController β γ)
    (account_number : String) : Bool × ATMController β γ :=
  if m.state ≠ ATMState.PIN_VERIFIED then (false, m)
  else
    let accounts := get_available_accounts B m
    if accounts.any (fun a => a.number == account_number) then
      (true, { m with selected_account := some account_number
                      state := ATMState.ACCOUNT_SELECTED })
    else (false, m)

/-- `ATMController.check_balance`. -/
def check_balance (B : BankOps β) (m : ATMController β γ) :
    Option Int × ATMController β γ :=
  if m.state ≠ ATMState.ACCOUNT_SELECTED ∨ ¬ strTruthy m.selected_account then
    (none, m)
  else
    let acct := m.selected_account.getD ""
    let balance := B.get_balance m.bank acct
    (some balance,
      { m with transaction_history := m.transaction_history ++
          [{ type := TransactionType.BALANCE_INQUIRY
             account := acct, amount := 0, success := true }] })

/-- `ATMController.withdraw`: ledger debit, then cash dispense, with a
compensating ledger credit (result discarded, as in the source) when
dispensing fails; exactly one record is appended after the guards pass. -/
def withdraw (B : BankOps β) (H : HardwareOps γ) (m : ATMController β γ)
    (amount : Int) : (Bool × Option Int) × ATMController β γ :=
  if m.state ≠ ATMState.ACCOUNT_SELECTED ∨ ¬ strTruthy m.selected_account then
    ((false, none), m)
  else if amount ≤ 0 then ((false, none), m)
  else
    let acct := m.selected_account.getD ""
    let w := B.withdraw m.bank acct amount
    let step :
        Bool × β × γ :=
      if w.1 then
        let d := H.dispense_cash m.hw amount
        if d.1 then (true, w.2, d.2)
        else
          let c := B.deposit w.2 acct amount
          (false, c.2, d.2)
      else (false, w.2, m.hw)
    let m2 : ATMController β γ :=
      { m with bank := step.2.1, hw := step.2.2
               transaction_history := m.transaction_history ++
                 [{ type := TransactionType.WITHDRAWAL
                    account := acct, amount := amount, success := step.1 }] }
    if step.1 then ((true, some (B.get_balance step.2.1 acct)), m2)
    else ((false, none), m2)

/-- `ATMController.deposit`: hardware `accept_cash` first; the accepted
amount replaces the requested one (`if accepted_amount != amount: amount =
accepted_amount`), is credited to the ledger and recorded. -/
def deposit (B : BankOps β) (H : HardwareOps γ) (m : ATMController β γ)
    (amount : Int) : (Bool × Option Int) × ATMController β γ :=
  if m.state ≠ ATMState.ACCOUNT_SELECTED ∨ ¬ strTruthy m.selected_account then
    ((false, none), m)
  else if amount ≤ 0 then ((false, none), m)
  else
    let acct := m.selected_account.getD ""
    let a := H.accept_cash m.hw
    let amount2 := if a.1 ≠ amount then a.1 else amount
    let c := B.deposit m.bank acct amount2
    let m2 : ATMController β γ :=
      { m with bank := c.2, hw := a.2
               transaction_history := m.transaction_history ++
                 [{ type := TransactionType.DEPOSIT
                    account := acct, amount := amount2, success := c.1 }] }
    if c.1 then ((true, some (B.get_balance c.2 acct)), m2)
    else ((false, none), m2)

/-- `ATMController._reset_state`. -/
def reset_state (m : ATMController β γ) : ATMController β γ :=
  { m with state := ATMState.IDLE
           current_card := none
           selected_account := none }

/-- `ATMController.eject_card`: delegates to the hardware; resets the
session only when the hardware reports success. -/
def eject_card (H : HardwareOps γ) (m : ATMController β γ) :
    Bool × ATMController β γ :=
  let e := H.eject_card m.hw
  if e.1 then (true, reset_state { m with hw := e.2 })
  else (false, { m with hw := e.2 })

/-- `ATMController.cancel_transaction`: alias for `eject_card`. -/
def cancel_transaction (H : HardwareOps γ) (m : ATMController β γ) :
    Bool × ATMController β γ :=
  eject_card H m

end ATMController

/-! ### The repository's `MockBankSystem`

Its state is the `accounts` dict: card number ↦ pin and account list,
modelled as an association list (dict iteration order = insertion order).
`get_balance`, `withdraw` and `deposit` iterate over all card entries and
their accounts in order, acting on the first qualifying account. -/

/-- The value stored per card in `MockBankSystem.accounts`. -/
structure CardData where
  pin : String
  accounts : List Account
deriving DecidableEq, Repr

/-- The state of `MockBankSystem`: its `accounts` dictionary. -/
abbrev MockBankState := List (String × CardData)

/-- All account dictionaries in iteration order (values of the outer dict,
then each card's account list). -/
def allAccounts (st : MockBankState) : List Account :=
  (st.map (fun p => p.2.accounts)).flatten

/-- `MockBankSystem.verify_pin`. -/
def mockVerifyPin (st : MockBankState) (card_number pin : String) : Bool :=
  match st.lookup card_number with
  | some cd => cd.pin == pin
  | none => false

/-- `MockBankSystem.get_accounts`. -/
def mockGetAccounts (st : MockBankState) (card_number : String) :
    List Account :=
  match st.lookup card_number with
  | some cd => cd.accounts
  | none => []

/-- The inner loop of `MockBankSystem.get_balance`: first account with a
matching number. -/
def getBalanceAccs (account_number : String) : List Account → Option Int
  | [] => none
  | a :: rest =>
    if a.number == account_number then some a.balance
    else getBalanceAccs account_number rest

/-- `MockBankSystem.get_balance`: first matching account's balance, else 0. -/
def mockGetBalance (st : MockBankState) (account_number : String) : Int :=
  match getBalanceAccs account_number (allAccounts st) with
  | some b => b
  | none => 0

/-- Loop body of `MockBankSystem.withdraw` over one account list: debit the
first account whose number matches **and** whose balance suffices; an
insufficient matching account is skipped (the Python loop just continues). -/
def withdrawAccs (account_number : String) (amount : Int) :
    List Account → Bool × List Account
  | [] => (false, [])
  | a :: rest =>
    if a.number == account_number && decide (a.balance ≥ amount) then
      (true, { a with balance := a.balance - amount } :: rest)
    else
      let r := withdrawAccs account_number amount rest
      (r.1, a :: r.2)

/-- Outer loop of `MockBankSystem.withdraw` over the card entries. -/
def withdrawCards (account_number : String) (amount : Int) :
    MockBankState → Bool × MockBankState
  | [] => (false, [])
  | (k, cd) :: rest =>
    let r := withdrawAccs account_number amount cd.accounts
    if r.1 then (true, (k, { cd with accounts := r.2 }) :: rest)
    else
      let r2 := withdrawCards account_number amount rest
      (r2.1, (k, cd) :: r2.2)

/-- `MockBankSystem.withdraw`. -/
def mockWithdraw (st : MockBankState) (account_number : String)
    (amount : Int) : Bool × MockBankState :=
  if amount ≤ 0 then (false, st)
  else withdrawCards account_number amount st

/-- Loop body of `MockBankSystem.deposit` over one account list: credit the
first account whose number matches. -/
def depositAccs (account_number : String) (amount : Int) :
    List Account → Bool × List Account
  | [] => (false, [])
  | a :: rest =>
    if a.number == account_number then
      (true, { a with balance := a.balance + amount } :: rest)
    else
      let r := depositAccs account_number amount rest
      (r.1, a :: r.2)

/-- Outer loop of `MockBankSystem.deposit` over the card entries. -/
def depositCards (account_number : String) (amount : Int) :
    MockBankState → Bool × MockBankState
  | [] => (false, [])
  | (k, cd) :: rest =>
    let r := depositAccs account_number amount cd.accounts
    if r.1 then (true, (k, { cd with accounts := r.2 }) :: rest)
    else
      let r2 := depositCards account_number amount rest
      (r2.1, (k, cd) :: r2.2)

/-- `MockBankSystem.deposit`. -/
def mockDeposit (st : MockBankState) (account_number : String)
    (amount : Int) : Bool × MockBankState :=
  if amount ≤ 0 then (false, st)
  else depositCards account_number amount st

/-- `MockBankSystem` packaged as a `BankOps`. -/
def mockBank : BankOps MockBankState :=
  { verify_pin := mockVerifyPin
    get_accounts := mockGetAccounts
    get_balance := mockGetBalance
    withdraw := mockWithdraw
    deposit := mockDeposit }

/-- `MockBankSystem.__init__`: the initial accounts dictionary. -/
def mockBankInit : MockBankState :=
  [("1234567890",
    { pin := "1234"
      accounts := [{ number := "1001", name := "Checking", balance := 1000 },
                   { number := "1002", name := "Savings", balance := 5000 }] }),
   ("0987654321",
    { pin := "4321"
      accounts := [{ number := "2001", name := "Checking", balance := 2500 }] })]

/-! ### The repository's `MockHardware` -/

/-- The state of `MockHardware`. -/
structure MockHWState where
  card_inserted : Bool
  card_number : Option String
deriving DecidableEq, Repr

/-- `MockHardware` packaged as a `HardwareOps`: eject always succeeds and
clears its fields, dispense succeeds iff the amount is positive, accept
always accepts 100. -/
def mockHardware : HardwareOps MockHWState :=
  { eject_card := fun _ => (true, { card_inserted := false, card_number := none })
    dispense_cash := fun g amount => (decide (amount > 0), g)
    accept_cash := fun g => (100, g) }

/-- `MockHardware.__init__`. -/
def mockHWInit : MockHWState := { card_inserted := false, card_number := none }

/-! ### Operation sequences

For the reachability claims (session-field invariant, unreachability of
`TRANSACTION_COMPLETED`) we close the controller's public surface into an
operation type and run call sequences from the initial controller. -/

/-- One call to the controller's public surface, with its arguments. -/
inductive Op where
  | insert_card (card_number : String)
  | enter_pin (pin : String)
  | get_available_accounts
  | select_account (account_number : String)
  | check_balance
  | withdraw (amount : Int)
  | deposit (amount : Int)
  | eject_card
  | cancel_transaction
deriving DecidableEq, Repr

/-- Run one public call, keeping only the controller (return values are not
needed for reachability). -/
def runOp {β γ : Type} (B : BankOps β) (H : HardwareOps γ) (o : Op)
    (m : ATMController β γ) : ATMController β γ :=
  match o with
  | Op.insert_card c => (m.insert_card c).2
  | Op.enter_pin p => (m.enter_pin B p).2
  | Op.get_available_accounts => m
  | Op.select_account a => (m.select_account B a).2
  | Op.check_balance => (m.check_balance B).2
  | Op.withdraw amt => (m.withdraw B H amt).2
  | Op.deposit amt => (m.deposit B H amt).2
  | Op.eject_card => (m.eject_card H).2
  | Op.cancel_transaction => (m.cancel_transaction H).2

/-- Run a sequence of public calls in order. -/
def runOps {β γ : Type} (B : BankOps β) (H : HardwareOps γ) :
    List Op → ATMController β γ → ATMController β γ
  | [], m => m
  | o :: rest, m => runOps B H rest (runOp B H o m)

/-- The session-field invariant of the spec's data model: the card is
present exactly in the three card-holding states and the account exactly in
`ACCOUNT_SELECTED`. -/
def SessionInv {β γ : Type} (m : ATMController β γ) : Prop :=
  (m.current_card.isSome = true ↔
    (m.state = ATMState.CARD_INSERTED ∨ m.state = ATMState.PIN_VERIFIED ∨
     m.state = ATMState.ACCOUNT_SELECTED)) ∧
  (m.selected_account.isSome = true ↔ m.state = ATMState.ACCOUNT_SELECTED)

instance {β γ : Type} (m : ATMController β γ) : Decidable (SessionInv m) := by
  unfold SessionInv; infer_instance

/-! ### Concrete capability behaviours used as test fixtures

`BankSystemInterface` and `HardwareInterface` are abstract: any
implementation with these signatures may sit behind the controller.  The
fixtures below exhibit particular behaviours (a ledger whose compensating
credit fails, a ledger whose debit fails, a dispenser that fails) that the
mocks of the repository cannot produce. -/

/-- A ledger whose debit always succeeds and whose credit always fails:
behind it, a withdrawal hits the compensating-credit-failure path. -/
def credFailBank : BankOps Unit :=
  { verify_pin := fun _ _ _ => true
    get_accounts := fun _ _ =>
      [{ number := "1001", name := "Checking", balance := 100 }]
    get_balance := fun _ _ => 100
    withdraw := fun _ _ _ => (true, ())
    deposit := fun _ _ _ => (false, ()) }

/-- A ledger whose debit always fails: behind it, a withdrawal is an
ordinary failed withdrawal. -/
def debitFailBank : BankOps Unit :=
  { verify_pin := fun _ _ _ => true
    get_accounts := fun _ _ =>
      [{ number := "1001", name := "Checking", balance := 100 }]
    get_balance := fun _ _ => 100
    withdraw := fun _ _ _ => (false, ())
    deposit := fun _ _ _ => (true, ()) }

/-- Hardware whose dispenser always fails (eject succeeds, nothing is
accepted). -/
def noDispenseHW : HardwareOps Unit :=
  { eject_card := fun _ => (true, ())
    dispense_cash := fun _ _ => (false, ())
    accept_cash := fun _ => (0, ()) }

/-- A session legitimately in `ACCOUNT_SELECTED` (card and account
present), with stateless collaborators. -/
def atmAccSel : ATMController Unit Unit :=
  { state := ATMState.ACCOUNT_SELECTED
    current_card := some "1234567890"
    selected_account := some "1001"
    transaction_history := []
    bank := ()
    hw := () }

end AtmController

namespace AtmController

open ATMController

/-- C1: every guarded operation of the controller, when invoked outside the
state it requires or with a missing precondition (card or account absent in
the Python-truthiness sense, non-positive amount where an amount is
required), returns its failure indicator (`false`, `[]` or `none`) and
returns the controller unchanged.  `eject_card`/`cancel_transaction` carry
no state requirement in the source (they delegate to the hardware from any
state), so no conjunct applies to them. -/
theorem wrong_state_is_noop {β γ : Type} (B : BankOps β) (H : HardwareOps γ) :
    (∀ (m : ATMController β γ) (c : String),
      m.state ≠ ATMState.IDLE → m.insert_card c = (false, m)) ∧
    (∀ (m : ATMController β γ) (p : String),
      m.state ≠ ATMState.CARD_INSERTED ∨ ¬ strTruthy m.current_card →
      m.enter_pin B p = (false, m)) ∧
    (∀ m : ATMController β γ,
      m.state ≠ ATMState.PIN_VERIFIED ∨ ¬ strTruthy m.current_card →
      get_available_accounts B m = []) ∧
    (∀ (m : ATMController β γ) (a : String),
      m.state ≠ ATMState.PIN_VERIFIED ∨ ¬ strTruthy m.current_card →
      m.select_account B a = (false, m)) ∧
    (∀ m : ATMController β γ,
      m.state ≠ ATMState.ACCOUNT_SELECTED ∨ ¬ strTruthy m.selected_account →
      m.check_balance B = (none, m)) ∧
    (∀ (m : ATMController β γ) (amt : Int),
      m.state ≠ ATMState.ACCOUNT_SELECTED ∨ ¬ strTruthy m.selected_account ∨
        amt ≤ 0 →
      m.withdraw B H amt = ((false, none), m)) ∧
    (∀ (m : ATMController β γ) (amt : Int),
      m.state ≠ ATMState.ACCOUNT_SELECTED ∨ ¬ strTruthy m.selected_account ∨
        amt ≤ 0 →
      m.deposit B H amt = ((false, none), m)) := by
  refine ⟨?_, ?_, ?_, ?_, ?_, ?_, ?_⟩
  · intro m c h
    simp [ATMController.insert_card, h]
  · intro m p h
    rcases h with h | h <;> simp [ATMController.enter_pin, h]
  · intro m h
    rcases h with h | h <;> simp [get_available_accounts, h]
  · intro m a h
    by_cases hs : m.state = ATMState.PIN_VERIFIED
    · rcases h with h | h
      · exact absurd hs h
      · simp [ATMController.select_account, get_available_accounts, hs, h]
    · simp [ATMController.select_account, hs]
  · intro m h
    rcases h with h | h <;> simp [ATMController.check_balance, h]
  · intro m amt h
    rcases h with h | h | h <;> simp [ATMController.withdraw, h]
  · intro m amt h
    rcases h with h | h | h <;> simp [ATMController.deposit, h]

/-- Witness for C1: `enter_pin` invoked on the initial (idle) controller
with the mock collaborators fails and changes nothing (the spec's
Scenario F). -/
theorem wrong_state_is_noop_witness :
    (ATMController.init mockBankInit mockHWInit).enter_pin mockBank "1234" =
      (false, ATMController.init mockBankInit mockHWInit) :=
  (wrong_state_is_noop mockBank mockHardware).2.1
    (ATMController.init mockBankInit mockHWInit) "1234" (Or.inl (by decide))

/-- C6: for every session state, `eject_card` returns the hardware eject
result and `cancel_transaction` is its alias; on hardware success the
session is reset to `IDLE` with card and account cleared (the history and
the new hardware state are kept); on hardware failure every controller
field except the hardware state is unchanged. -/
theorem eject_card_resets_on_hw_success {β γ : Type} (H : HardwareOps γ)
    (m : ATMController β γ) :
    (m.eject_card H).1 = (H.eject_card m.hw).1 ∧
    m.cancel_transaction H = m.eject_card H ∧
    ((H.eject_card m.hw).1 = true →
      (m.eject_card H).2 =
        { m with state := ATMState.IDLE
                 current_card := none
                 selected_account := none
                 hw := (H.eject_card m.hw).2 }) ∧
    ((H.eject_card m.hw).1 = false →
      (m.eject_card H).2 = { m with hw := (H.eject_card m.hw).2 }) := by
  refine ⟨?_, rfl, ?_, ?_⟩
  · simp only [ATMController.eject_card]
    split <;> simp_all
  · intro h
    simp [ATMController.eject_card, ATMController.reset_state, h]
  · intro h
    simp [ATMController.eject_card, h]

/-- Witness for C6: ejecting with the mock hardware (eject always succeeds)
from the mid-session state resets the session to idle. -/
theorem eject_card_resets_on_hw_success_witness :
    (({ state := ATMState.ACCOUNT_SELECTED
        current_card := some "1234567890"
        selected_account := some "1001"
        transaction_history := []
        bank := mockBankInit
        hw := mockHWInit } : ATMController MockBankState MockHWState).eject_card
          mockHardware).2.state = ATMState.IDLE := by
  rw [(eject_card_resets_on_hw_success mockHardware _).2.2.1 (by decide)]

/-- C8: with the session in `ACCOUNT_SELECTED` and an account selected,
`check_balance` returns the ledger balance (never `none`), mutates neither
the bank state nor any session field, appends exactly one success record of
kind `BALANCE_INQUIRY` with amount 0, and a second consecutive call returns
the same value. -/
theorem check_balance_pure_read {β γ : Type} (B : BankOps β)
    (m : ATMController β γ) (acct : String)
    (hs : m.state = ATMState.ACCOUNT_SELECTED)
    (ha : m.selected_account = some acct) (hne : acct ≠ "") :
    m.check_balance B =
      (some (B.get_balance m.bank acct),
        { m with transaction_history := m.transaction_history ++
            [{ type := TransactionType.BALANCE_INQUIRY
               account := acct, amount := 0, success := true }] }) ∧
    ((m.check_balance B).2.check_balance B).1 = (m.check_balance B).1 := by
  have h1 : m.check_balance B =
      (some (B.get_balance m.bank acct),
        { m with transaction_history := m.transaction_history ++
            [{ type := TransactionType.BALANCE_INQUIRY
               account := acct, amount := 0, success := true }] }) := by
    simp [ATMController.check_balance, hs, ha, strTruthy, hne]
  refine ⟨h1, ?_⟩
  rw [h1]
  simp [ATMController.check_balance, hs, ha, strTruthy, hne]

/-- Witness for C8: Scenario A's balance inquiry reads 1000 and a repeat
call agrees. -/
theorem check_balance_pure_read_witness :
    ({ state := ATMState.ACCOUNT_SELECTED
       current_card := some "1234567890"
       selected_account := some "1001"
       transaction_history := []
       bank := mockBankInit
       hw := mockHWInit } : ATMController MockBankState MockHWState).check_balance
        mockBank =
      (some 1000,
        { state := ATMState.ACCOUNT_SELECTED
          current_card := some "1234567890"
          selected_account := some "1001"
          transaction_history :=
            [{ type := TransactionType.BALANCE_INQUIRY
               account := "1001", amount := 0, success := true }]
          bank := mockBankInit
          hw := mockHWInit }) := by
  rw [(check_balance_pure_read mockBank _ "1001" rfl rfl (by decide)).1]
  decide

/-- Unfolding of `deposit` once its guards pass: the hardware-accepted
amount is the one credited and recorded. -/
theorem deposit_eq_of_selected {β γ : Type} (B : BankOps β)
    (H : HardwareOps γ) (m : ATMController β γ) (acct : String) (amount : Int)
    (hs : m.state = ATMState.ACCOUNT_SELECTED)
    (ha : m.selected_account = some acct) (hne : acct ≠ "")
    (hpos : 0 < amount) :
    m.deposit B H amount =
      (((B.deposit m.bank acct (H.accept_cash m.hw).1).1,
        if (B.deposit m.bank acct (H.accept_cash m.hw).1).1 then
          some (B.get_balance (B.deposit m.bank acct (H.accept_cash m.hw).1).2
            acct)
        else none),
       { m with
           bank := (B.deposit m.bank acct (H.accept_cash m.hw).1).2
           hw := (H.accept_cash m.hw).2
           transaction_history := m.transaction_history ++
             [{ type := TransactionType.DEPOSIT
                account := acct
                amount := (H.accept_cash m.hw).1
                success := (B.deposit m.bank acct (H.accept_cash m.hw).1).1 }] }) := by
  have hamt : ¬ amount ≤ 0 := by omega
  have hacc : (if (H.accept_cash m.hw).1 ≠ amount then (H.accept_cash m.hw).1
      else amount) = (H.accept_cash m.hw).1 := by
    by_cases h : (H.accept_cash m.hw).1 = amount <;> simp [h]
  simp only [ATMController.deposit, hs, ha, strTruthy, hne, hamt]
  simp only [hacc]
  by_cases h : (B.deposit m.bank acct (H.accept_cash m.hw).1).1 = true <;>
    simp [h, hne]

/-- C5: with the session in `ACCOUNT_SELECTED` and a positive requested
amount, `deposit` credits the hardware's accepted amount (not the requested
one) to the ledger, records that accepted amount in the single appended
`DEPOSIT` record, and on success returns a fresh `get_balance` re-read of
the post-credit ledger. -/
theorem deposit_credits_accepted_amount {β γ : Type} (B : BankOps β)
    (H : HardwareOps γ) (m : ATMController β γ) (acct : String) (amount : Int)
    (hs : m.state = ATMState.ACCOUNT_SELECTED)
    (ha : m.selected_account = some acct) (hne : acct ≠ "")
    (hpos : 0 < amount) :
    m.deposit B H amount =
      (((B.deposit m.bank acct (H.accept_cash m.hw).1).1,
        if (B.deposit m.bank acct (H.accept_cash m.hw).1).1 then
          some (B.get_balance (B.deposit m.bank acct (H.accept_cash m.hw).1).2
            acct)
        else none),
       { m with
           bank := (B.deposit m.bank acct (H.accept_cash m.hw).1).2
           hw := (H.accept_cash m.hw).2
           transaction_history := m.transaction_history ++
             [{ type := TransactionType.DEPOSIT
                account := acct
                amount := (H.accept_cash m.hw).1
                success := (B.deposit m.bank acct (H.accept_cash m.hw).1).1 }] }) :=
  deposit_eq_of_selected B H m acct amount hs ha hne hpos

/-- Witness for C5: requesting a deposit of 42 while the mock hardware
accepts 100 credits and records 100, and returns the re-read balance
1100. -/
theorem deposit_credits_accepted_amount_witness :
    ({ state := ATMState.ACCOUNT_SELECTED
       current_card := some "1234567890"
       selected_account := some "1001"
       transaction_history := []
       bank := mockBankInit
       hw := mockHWInit } : ATMController MockBankState MockHWState).deposit
        mockBank mockHardware 42 =
      ((true, some 1100),
       { state := ATMState.ACCOUNT_SELECTED
         current_card := some "1234567890"
         selected_account := some "1001"
         transaction_history :=
           [{ type := TransactionType.DEPOSIT
              account := "1001", amount := 100, success := true }]
         bank := (mockDeposit mockBankInit "1001" 100).2
         hw := mockHWInit }) := by
  rw [deposit_credits_accepted_amount mockBank mockHardware _ "1001" 42 rfl rfl
    (by decide) (by decide)]
  decide

/-- C10: with the mock ledger (whose `deposit` refuses any non-positive
amount), a deposit whose hardware-accepted amount is non-positive fails:
`deposit` returns `(false, none)`, appends one failed `DEPOSIT` record
carrying the non-positive accepted amount, leaves the bank state and every
session field unchanged, and touches the hardware only through the one
`accept_cash` call (no compensating hardware action). -/
theorem deposit_nonpositive_accepted_fails {γ : Type} (H : HardwareOps γ)
    (m : ATMController MockBankState γ) (acct : String) (amount : Int)
    (hs : m.state = ATMState.ACCOUNT_SELECTED)
    (ha : m.selected_account = some acct) (hne : acct ≠ "")
    (hpos : 0 < amount) (hacc : (H.accept_cash m.hw).1 ≤ 0) :
    m.deposit mockBank H amount =
      ((false, none),
       { m with
           hw := (H.accept_cash m.hw).2
           transaction_history := m.transaction_history ++
             [{ type := TransactionType.DEPOSIT
                account := acct
                amount := (H.accept_cash m.hw).1
                success := false }] }) := by
  have hfail : mockBank.deposit m.bank acct (H.accept_cash m.hw).1 =
      (false, m.bank) := by
    simp [mockBank, mockDeposit, hacc]
  rw [deposit_eq_of_selected mockBank H m acct amount hs ha hne hpos]
  rw [hfail]
  simp

/-- Witness for C10: hardware that accepts 0 makes a requested deposit of
50 fail with a failed record of amount 0 and no bank change. -/
theorem deposit_nonpositive_accepted_fails_witness :
    ({ state := ATMState.ACCOUNT_SELECTED
       current_card := some "1234567890"
       selected_account := some "1001"
       transaction_history := []
       bank := mockBankInit
       hw := () } : ATMController MockBankState Unit).deposit
        mockBank noDispenseHW 50 =
      ((false, none),
       { state := ATMState.ACCOUNT_SELECTED
         current_card := some "1234567890"
         selected_account := some "1001"
         transaction_history :=
           [{ type := TransactionType.DEPOSIT
              account := "1001", amount := 0, success := false }]
         bank := mockBankInit
         hw := () }) := by
  rw [deposit_nonpositive_accepted_fails noDispenseHW _ "1001" 50 rfl rfl
    (by decide) (by decide) (by decide)]
  decide

/-- C3, counterexample: behind a ledger whose compensating credit fails
(`credFailBank`) and a dispenser that fails (`noDispenseHW`), a withdrawal
of 50 produces exactly the same caller-visible outcome — return value
`(false, none)` and the same single failed record, indeed the very same
resulting controller — as the ordinary failed withdrawal behind a ledger
whose debit fails (`debitFailBank`): the fatal consistency violation is not
distinguishable to the caller. -/
theorem withdraw_compensation_failure_indistinguishable :
    atmAccSel.withdraw credFailBank noDispenseHW 50 =
      ((false, none),
       { atmAccSel with transaction_history :=
           [{ type := TransactionType.WITHDRAWAL
              account := "1001", amount := 50, success := false }] }) ∧
    atmAccSel.withdraw debitFailBank noDispenseHW 50 =
      atmAccSel.withdraw credFailBank noDispenseHW 50 := by
  constructor <;> decide

/-- C3 as amended: when the ledger debit succeeds, the hardware dispense
fails and the compensating credit also fails, `withdraw` discards the
credit's result and reports an ordinary failure — `(false, none)` with one
failed `WITHDRAWAL` record for the requested amount, the session fields
unchanged and the bank left in the post-failed-credit state.  Nothing in
the caller-visible outcome distinguishes this from any other failed
withdrawal. -/
theorem withdraw_compensation_failure_swallowed {β γ : Type} (B : BankOps β)
    (H : HardwareOps γ) (m : ATMController β γ) (acct : String) (amount : Int)
    (hs : m.state = ATMState.ACCOUNT_SELECTED)
    (ha : m.selected_account = some acct) (hne : acct ≠ "")
    (hpos : 0 < amount)
    (hdebit : (B.withdraw m.bank acct amount).1 = true)
    (hdisp : (H.dispense_cash m.hw amount).1 = false)
    (hcred : (B.deposit (B.withdraw m.bank acct amount).2 acct amount).1 =
      false) :
    m.withdraw B H amount =
      ((false, none),
       { m with
           bank := (B.deposit (B.withdraw m.bank acct amount).2 acct amount).2
           hw := (H.dispense_cash m.hw amount).2
           transaction_history := m.transaction_history ++
             [{ type := TransactionType.WITHDRAWAL
                account := acct, amount := amount, success := false }] }) := by
  have hamt : ¬ amount ≤ 0 := by omega
  simp [ATMController.withdraw, hs, ha, strTruthy, hne, hamt, hdebit, hdisp]

/-! ### Lemmas about the mock ledger's loops

`MockBankSystem.withdraw` debits the first account whose number matches and
whose balance suffices; `MockBankSystem.deposit` credits the first account
whose number matches.  When account numbers are distinct, a successful
debit followed by a credit of the same amount restores the bank state
exactly. -/

theorem withdrawAccs_mem (n : String) (amt : Int) (l : List Account)
    (h : (withdrawAccs n amt l).1 = true) : n ∈ l.map Account.number := by
  induction l with
  | nil => simp [withdrawAccs] at h
  | cons x rest ih =>
    simp only [withdrawAccs] at h
    by_cases hc : (x.number == n && decide (x.balance ≥ amt)) = true
    · rw [if_pos hc] at h
      simp only [Bool.and_eq_true, beq_iff_eq, decide_eq_true_eq] at hc
      simp [hc.1]
    · rw [if_neg hc] at h
      simp only at h
      simp [ih h]

theorem withdrawAccs_snd_of_fail (n : String) (amt : Int) (l : List Account)
    (h : (withdrawAccs n amt l).1 = false) : (withdrawAccs n amt l).2 = l := by
  induction l with
  | nil => simp [withdrawAccs]
  | cons x rest ih =>
    simp only [withdrawAccs] at h ⊢
    by_cases hc : (x.number == n && decide (x.balance ≥ amt)) = true
    · rw [if_pos hc] at h
      simp at h
    · rw [if_neg hc] at h ⊢
      simp only at h ⊢
      rw [ih h]

theorem depositAccs_of_not_mem (n : String) (amt : Int) (l : List Account)
    (h : n ∉ l.map Account.number) : depositAccs n amt l = (false, l) := by
  induction l with
  | nil => simp [depositAccs]
  | cons x rest ih =>
    simp only [List.map_cons, List.mem_cons, not_or] at h
    have hx : (x.number == n) = false := by
      simp only [beq_eq_false_iff_ne, ne_eq]
      exact fun he => h.1 he.symm
    simp only [depositAccs, hx, Bool.false_eq_true, if_false]
    rw [ih h.2]

theorem depositAccs_restore (n : String) (amt : Int) (l l' : List Account)
    (hnd : (l.map Account.number).Nodup)
    (h : withdrawAccs n amt l = (true, l')) :
    depositAccs n amt l' = (true, l) := by
  induction l generalizing l' with
  | nil => simp [withdrawAccs] at h
  | cons x rest ih =>
    simp only [withdrawAccs] at h
    simp only [List.map_cons, List.nodup_cons] at hnd
    by_cases hc : (x.number == n && decide (x.balance ≥ amt)) = true
    · rw [if_pos hc] at h
      simp only [Bool.and_eq_true, beq_iff_eq, decide_eq_true_eq] at hc
      obtain ⟨he, -⟩ := hc
      obtain ⟨-, hl'⟩ := Prod.mk.injEq .. ▸ h
      subst hl'
      have hx : (({ x with balance := x.balance - amt } : Account).number == n)
          = true := by simp [he]
      simp only [depositAccs]
      rw [if_pos hx]
      simp only [Prod.mk.injEq, true_and]
      congr 1
      cases x
      simp only [Account.mk.injEq]
      exact ⟨trivial, trivial, by omega⟩
    · rw [if_neg hc] at h
      obtain ⟨hr1, hl'⟩ := Prod.mk.injEq .. ▸ h
      subst hl'
      have hmem := withdrawAccs_mem n amt rest hr1
      have hx : (x.number == n) = false := by
        simp only [beq_eq_false_iff_ne, ne_eq]
        intro he
        exact hnd.1 (he ▸ hmem)
      simp only [depositAccs, hx, Bool.false_eq_true, if_false]
      have := ih ((withdrawAccs n amt rest).2) hnd.2 (by rw [← hr1])
      rw [this]

theorem withdrawCards_mem (n : String) (amt : Int) (st : MockBankState)
    (h : (withdrawCards n amt st).1 = true) :
    n ∈ (allAccounts st).map Account.number := by
  induction st with
  | nil => simp [withdrawCards] at h
  | cons p rest ih =>
    obtain ⟨k, cd⟩ := p
    simp only [withdrawCards] at h
    simp only [allAccounts, List.map_cons, List.flatten_cons, List.map_append,
      List.mem_append]
    by_cases hc : (withdrawAccs n amt cd.accounts).1 = true
    · rw [if_pos hc] at h
      exact Or.inl (withdrawAccs_mem n amt cd.accounts hc)
    · rw [if_neg hc] at h
      simp only at h
      exact Or.inr (by simpa [allAccounts] using ih h)

theorem withdrawCards_snd_of_fail (n : String) (amt : Int) (st : MockBankState)
    (h : (withdrawCards n amt st).1 = false) : (withdrawCards n amt st).2 = st := by
  induction st with
  | nil => simp [withdrawCards]
  | cons p rest ih =>
    obtain ⟨k, cd⟩ := p
    simp only [withdrawCards] at h ⊢
    by_cases hc : (withdrawAccs n amt cd.accounts).1 = true
    · rw [if_pos hc] at h
      simp at h
    · rw [if_neg hc] at h ⊢
      simp only at h ⊢
      rw [ih h]

theorem depositCards_restore (n : String) (amt : Int) (st st' : MockBankState)
    (hnd : ((allAccounts st).map Account.number).Nodup)
    (h : withdrawCards n amt st = (true, st')) :
    depositCards n amt st' = (true, st) := by
  induction st generalizing st' with
  | nil => simp [withdrawCards] at h
  | cons p rest ih =>
    obtain ⟨k, cd⟩ := p
    simp only [allAccounts, List.map_cons, List.flatten_cons, List.map_append,
      List.nodup_append] at hnd
    obtain ⟨hnd1, hnd2, hdisj⟩ := hnd
    simp only [withdrawCards] at h
    by_cases hc : (withdrawAccs n amt cd.accounts).1 = true
    · rw [if_pos hc] at h
      obtain ⟨-, hl'⟩ := Prod.mk.injEq .. ▸ h
      subst hl'
      have hdep := depositAccs_restore n amt cd.accounts
        ((withdrawAccs n amt cd.accounts).2) hnd1 (by rw [← hc])
      simp only [depositCards, hdep, if_pos]
    · rw [if_neg hc] at h
      obtain ⟨hr1, hl'⟩ := Prod.mk.injEq .. ▸ h
      subst hl'
      have hmem : n ∈ (allAccounts rest).map Account.number := by
        simpa [allAccounts] using withdrawCards_mem n amt rest hr1
      have hnot : n ∉ cd.accounts.map Account.number := fun hin =>
        hdisj hin hmem
      have hfail := depositAccs_of_not_mem n amt cd.accounts hnot
      simp only [depositCards, hfail, Bool.false_eq_true, if_false]
      have := ih ((withdrawCards n amt rest).2) hnd2 (by rw [← hr1])
      rw [this]

/-- A failed `MockBankSystem.withdraw` leaves the bank state unchanged. -/
theorem mockWithdraw_snd_of_fail (st : MockBankState) (n : String) (amt : Int)
    (h : (mockWithdraw st n amt).1 = false) : (mockWithdraw st n amt).2 = st := by
  unfold mockWithdraw at h ⊢
  by_cases ha : amt ≤ 0
  · rw [if_pos ha]
  · rw [if_neg ha] at h ⊢
    exact withdrawCards_snd_of_fail n amt st h

/-- With distinct account numbers, crediting back the amount of a
successful `MockBankSystem.withdraw` restores the bank state exactly. -/
theorem mockDeposit_restore (st st' : MockBankState) (n : String) (amt : Int)
    (hnd : ((allAccounts st).map Account.number).Nodup) (hpos : 0 < amt)
    (h : mockWithdraw st n amt = (true, st')) :
    mockDeposit st' n amt = (true, st) := by
  have hamt : ¬ amt ≤ 0 := by omega
  unfold mockWithdraw at h
  rw [if_neg hamt] at h
  unfold mockDeposit
  rw [if_neg hamt]
  exact depositCards_restore n amt st st' hnd h

/-- C2: with the mock ledger, distinct account numbers, a successful debit,
a failed hardware dispense and a successful compensating credit, `withdraw`
returns `(false, none)`, restores the bank state exactly (so the account's
post-call balance equals its pre-call balance), and appends exactly one
failed `WITHDRAWAL` record with the requested amount. -/
theorem withdraw_rollback_restores_balance {γ : Type} (H : HardwareOps γ)
    (m : ATMController MockBankState γ) (acct : String) (amount : Int)
    (hs : m.state = ATMState.ACCOUNT_SELECTED)
    (ha : m.selected_account = some acct) (hne : acct ≠ "")
    (hpos : 0 < amount)
    (hnd : ((allAccounts m.bank).map Account.number).Nodup)
    (hdebit : (mockWithdraw m.bank acct amount).1 = true)
    (hdisp : (H.dispense_cash m.hw amount).1 = false)
    (hcred : (mockDeposit (mockWithdraw m.bank acct amount).2 acct amount).1 =
      true) :
    m.withdraw mockBank H amount =
      ((false, none),
       { m with
           hw := (H.dispense_cash m.hw amount).2
           transaction_history := m.transaction_history ++
             [{ type := TransactionType.WITHDRAWAL
                account := acct, amount := amount, success := false }] }) ∧
    mockGetBalance (m.withdraw mockBank H amount).2.bank acct =
      mockGetBalance m.bank acct := by
  have hamt : ¬ amount ≤ 0 := by omega
  have hrest : mockDeposit (mockWithdraw m.bank acct amount).2 acct amount =
      (true, m.bank) :=
    mockDeposit_restore m.bank ((mockWithdraw m.bank acct amount).2) acct
      amount hnd hpos (by rw [← hdebit])
  have heq : m.withdraw mockBank H amount =
      ((false, none),
       { m with
           hw := (H.dispense_cash m.hw amount).2
           transaction_history := m.transaction_history ++
             [{ type := TransactionType.WITHDRAWAL
                account := acct, amount := amount, success := false }] }) := by
    simp [ATMController.withdraw, mockBank, hs, ha, strTruthy, hne, hamt,
      hdebit, hdisp, hrest]
  refine ⟨heq, ?_⟩
  rw [heq]

/-- Witness for C2: withdrawing 100 from account 1001 of the freshly
initialised mock ledger behind a dispenser that fails rolls the balance
back to 1000. -/
theorem withdraw_rollback_restores_balance_witness :
    ({ state := ATMState.ACCOUNT_SELECTED
       current_card := some "1234567890"
       selected_account := some "1001"
       transaction_history := []
       bank := mockBankInit
       hw := () } : ATMController MockBankState Unit).withdraw
        mockBank noDispenseHW 100 =
      ((false, none),
       { state := ATMState.ACCOUNT_SELECTED
         current_card := some "1234567890"
         selected_account := some "1001"
         transaction_history :=
           [{ type := TransactionType.WITHDRAWAL
              account := "1001", amount := 100, success := false }]
         bank := mockBankInit
         hw := () }) := by
  rw [(withdraw_rollback_restores_balance noDispenseHW _ "1001" 100 rfl rfl
    (by decide) (by decide) (by decide) (by decide) (by decide) (by decide)).1]
  decide


/-- C4: with the mock ledger, a debit failure (e.g. insufficient funds)
makes `withdraw` return `(false, none)` with the bank state, the hardware
state (no dispense call) and every session field unchanged, and exactly one
failed `WITHDRAWAL` record with the requested amount appended. -/
theorem withdraw_debit_failure_no_dispense {γ : Type} (H : HardwareOps γ)
    (m : ATMController MockBankState γ) (acct : String) (amount : Int)
    (hs : m.state = ATMState.ACCOUNT_SELECTED)
    (ha : m.selected_account = some acct) (hne : acct ≠ "")
    (hpos : 0 < amount)
    (hdebit : (mockWithdraw m.bank acct amount).1 = false) :
    m.withdraw mockBank H amount =
      ((false, none),
       { m with transaction_history := m.transaction_history ++
           [{ type := TransactionType.WITHDRAWAL
              account := acct, amount := amount, success := false }] }) ∧
    mockGetBalance (m.withdraw mockBank H amount).2.bank acct =
      mockGetBalance m.bank acct := by
  have hamt : ¬ amount ≤ 0 := by omega
  have hsnd := mockWithdraw_snd_of_fail m.bank acct amount hdebit
  have heq : m.withdraw mockBank H amount =
      ((false, none),
       { m with transaction_history := m.transaction_history ++
           [{ type := TransactionType.WITHDRAWAL
              account := acct, amount := amount, success := false }] }) := by
    simp [ATMController.withdraw, mockBank, hs, ha, strTruthy, hne, hamt,
      hdebit, hsnd]
  refine ⟨heq, ?_⟩
  rw [heq]

/-- Witness for C4: Scenario C — withdrawing 2000 against a balance of 1000
fails, touches nothing, and logs one failed record of amount 2000. -/
theorem withdraw_debit_failure_no_dispense_witness :
    ({ state := ATMState.ACCOUNT_SELECTED
       current_card := some "1234567890"
       selected_account := some "1001"
       transaction_history := []
       bank := mockBankInit
       hw := mockHWInit } : ATMController MockBankState MockHWState).withdraw
        mockBank mockHardware 2000 =
      ((false, none),
       { state := ATMState.ACCOUNT_SELECTED
         current_card := some "1234567890"
         selected_account := some "1001"
         transaction_history :=
           [{ type := TransactionType.WITHDRAWAL
              account := "1001", amount := 2000, success := false }]
         bank := mockBankInit
         hw := mockHWInit }) := by
  rw [(withdraw_debit_failure_no_dispense mockHardware _ "1001" 2000 rfl rfl
    (by decide) (by decide) (by decide)).1]
  decide

/-- Witness for the amended C3 at the counterexample's concrete input. -/
theorem withdraw_compensation_failure_swallowed_witness :
    atmAccSel.withdraw credFailBank noDispenseHW 50 =
      ((false, none),
       { atmAccSel with transaction_history :=
           [{ type := TransactionType.WITHDRAWAL
              account := "1001", amount := 50, success := false }] }) := by
  rw [withdraw_compensation_failure_swallowed credFailBank noDispenseHW
    atmAccSel "1001" 50 rfl rfl (by decide) (by decide) (by decide) (by decide)
    (by decide)]
  decide

/-! ### Session-field invariant and reachability -/

theorem sessionInv_init {β γ : Type} (b : β) (g : γ) :
    SessionInv (ATMController.init b g) := by
  simp [SessionInv, ATMController.init]

/-- `check_balance` never changes the three session fields. -/
theorem check_balance_session_fields {β γ : Type} (B : BankOps β)
    (m : ATMController β γ) :
    (m.check_balance B).2.state = m.state ∧
    (m.check_balance B).2.current_card = m.current_card ∧
    (m.check_balance B).2.selected_account = m.selected_account := by
  simp only [ATMController.check_balance]
  split <;> simp

/-- `withdraw` never changes the three session fields. -/
theorem withdraw_session_fields {β γ : Type} (B : BankOps β)
    (H : HardwareOps γ) (m : ATMController β γ) (amt : Int) :
    (m.withdraw B H amt).2.state = m.state ∧
    (m.withdraw B H amt).2.current_card = m.current_card ∧
    (m.withdraw B H amt).2.selected_account = m.selected_account := by
  simp only [ATMController.withdraw]
  repeat' split
  all_goals simp

/-- `deposit` never changes the three session fields. -/
theorem deposit_session_fields {β γ : Type} (B : BankOps β)
    (H : HardwareOps γ) (m : ATMController β γ) (amt : Int) :
    (m.deposit B H amt).2.state = m.state ∧
    (m.deposit B H amt).2.current_card = m.current_card ∧
    (m.deposit B H amt).2.selected_account = m.selected_account := by
  simp only [ATMController.deposit]
  repeat' split
  all_goals simp

/-- `SessionInv` only looks at the three session fields. -/
theorem sessionInv_of_fields_eq {β γ : Type} {m m' : ATMController β γ}
    (hs : m'.state = m.state) (hc : m'.current_card = m.current_card)
    (ha : m'.selected_account = m.selected_account) (h : SessionInv m) :
    SessionInv m' := by
  unfold SessionInv at h ⊢
  rw [hs, hc, ha]
  exact h

theorem sessionInv_runOp {β γ : Type} (B : BankOps β) (H : HardwareOps γ)
    (o : Op) (m : ATMController β γ) (h : SessionInv m) :
    SessionInv (runOp B H o m) := by
  obtain ⟨h1, h2⟩ := h
  cases o with
  | insert_card c =>
    by_cases hs : m.state = ATMState.IDLE
    · have hsel : m.selected_account.isSome = false := by
        rw [hs] at h2
        simpa using h2
      simp [runOp, ATMController.insert_card, hs, SessionInv, hsel]
    · simpa [runOp, ATMController.insert_card, hs, SessionInv] using ⟨h1, h2⟩
  | enter_pin p =>
    by_cases hg : m.state ≠ ATMState.CARD_INSERTED ∨ ¬ strTruthy m.current_card
    · simp only [runOp, ATMController.enter_pin]
      rw [if_pos hg]
      exact ⟨h1, h2⟩
    · push_neg at hg
      obtain ⟨hst, htr⟩ := hg
      have hsel : m.selected_account.isSome = false := by
        rw [hst] at h2
        simpa using h2
      have hcard : m.current_card.isSome = true := by
        cases hc : m.current_card with
        | none => rw [hc] at htr; simp [strTruthy] at htr
        | some s => simp
      simp only [runOp, ATMController.enter_pin]
      rw [if_neg (by push_neg; exact ⟨hst, htr⟩)]
      by_cases hv : B.verify_pin m.bank (m.current_card.getD "") p = true
      · rw [if_pos hv]
        exact ⟨by simp [hcard], by simp [hsel]⟩
      · rw [if_neg hv]
        exact ⟨h1, h2⟩
  | get_available_accounts => exact ⟨h1, h2⟩
  | select_account a =>
    by_cases hst : m.state = ATMState.PIN_VERIFIED
    · have hcard : m.current_card.isSome = true := by
        rw [hst] at h1
        simp [h1]
      simp only [runOp, ATMController.select_account]
      rw [if_neg (fun hn => hn hst)]
      by_cases hf : (get_available_accounts B m).any
          (fun x => x.number == a) = true
      · rw [if_pos hf]
        exact ⟨by simp [hcard], by simp⟩
      · rw [if_neg hf]
        exact ⟨h1, h2⟩
    · simp only [runOp, ATMController.select_account]
      rw [if_pos hst]
      exact ⟨h1, h2⟩
  | check_balance =>
    obtain ⟨f1, f2, f3⟩ := check_balance_session_fields B m
    exact sessionInv_of_fields_eq f1 f2 f3 ⟨h1, h2⟩
  | withdraw amt =>
    obtain ⟨f1, f2, f3⟩ := withdraw_session_fields B H m amt
    exact sessionInv_of_fields_eq f1 f2 f3 ⟨h1, h2⟩
  | deposit amt =>
    obtain ⟨f1, f2, f3⟩ := deposit_session_fields B H m amt
    exact sessionInv_of_fields_eq f1 f2 f3 ⟨h1, h2⟩
  | eject_card =>
    by_cases he : (H.eject_card m.hw).1 = true
    · simp [runOp, ATMController.eject_card, ATMController.reset_state, he,
        SessionInv]
    · simpa [runOp, ATMController.eject_card, he, SessionInv] using ⟨h1, h2⟩
  | cancel_transaction =>
    by_cases he : (H.eject_card m.hw).1 = true
    · simp [runOp, ATMController.cancel_transaction, ATMController.eject_card,
        ATMController.reset_state, he, SessionInv]
    · simpa [runOp, ATMController.cancel_transaction,
        ATMController.eject_card, he, SessionInv] using ⟨h1, h2⟩

theorem sessionInv_runOps {β γ : Type} (B : BankOps β) (H : HardwareOps γ)
    (ops : List Op) (m : ATMController β γ) (h : SessionInv m) :
    SessionInv (runOps B H ops m) := by
  induction ops generalizing m with
  | nil => exact h
  | cons o rest ih => exact ih (runOp B H o m) (sessionInv_runOp B H o m h)

/-- C7: the data-model invariant — card present iff the state is one of
`CARD_INSERTED`, `PIN_VERIFIED`, `ACCOUNT_SELECTED`; account present iff
the state is `ACCOUNT_SELECTED` — holds for the initial controller, is
preserved by every public operation, and therefore holds after every call
sequence, whatever the ledger and hardware behaviours. -/
theorem session_field_invariant (β γ : Type) (B : BankOps β)
    (H : HardwareOps γ) (b : β) (g : γ) :
    SessionInv (ATMController.init b g) ∧
    (∀ (o : Op) (m : ATMController β γ),
      SessionInv m → SessionInv (runOp B H o m)) ∧
    (∀ ops : List Op, SessionInv (runOps B H ops (ATMController.init b g))) :=
  ⟨sessionInv_init b g,
   fun o m h => sessionInv_runOp B H o m h,
   fun ops => sessionInv_runOps B H ops _ (sessionInv_init b g)⟩

/-- Witness for C7: the invariant after inserting a card into the freshly
initialised mock-backed controller. -/
theorem session_field_invariant_witness :
    SessionInv (runOp mockBank mockHardware (Op.insert_card "1234567890")
      (ATMController.init mockBankInit mockHWInit)) :=
  (session_field_invariant MockBankState MockHWState mockBank mockHardware
      mockBankInit mockHWInit).2.1
    (Op.insert_card "1234567890")
    (ATMController.init mockBankInit mockHWInit) (by decide)

/-- No public operation ever moves the state to `TRANSACTION_COMPLETED`. -/
theorem runOp_state_ne_completed {β γ : Type} (B : BankOps β)
    (H : HardwareOps γ) (o : Op) (m : ATMController β γ)
    (h : m.state ≠ ATMState.TRANSACTION_COMPLETED) :
    (runOp B H o m).state ≠ ATMState.TRANSACTION_COMPLETED := by
  cases o with
  | insert_card c =>
    by_cases hs : m.state = ATMState.IDLE <;>
      simp [runOp, ATMController.insert_card, hs, h]
  | enter_pin p =>
    by_cases hg : m.state ≠ ATMState.CARD_INSERTED ∨ ¬ strTruthy m.current_card
    · simp only [runOp, ATMController.enter_pin]
      rw [if_pos hg]
      exact h
    · push_neg at hg
      simp only [runOp, ATMController.enter_pin]
      rw [if_neg (by push_neg; exact hg)]
      by_cases hv : B.verify_pin m.bank (m.current_card.getD "") p = true
      · rw [if_pos hv]; simp
      · rw [if_neg hv]; exact h
  | get_available_accounts => exact h
  | select_account a =>
    by_cases hst : m.state = ATMState.PIN_VERIFIED
    · simp only [runOp, ATMController.select_account]
      rw [if_neg (fun hn => hn hst)]
      by_cases hf : (get_available_accounts B m).any
          (fun x => x.number == a) = true
      · rw [if_pos hf]; simp
      · rw [if_neg hf]; exact h
    · simp only [runOp, ATMController.select_account]
      rw [if_pos hst]
      exact h
  | check_balance => exact (check_balance_session_fields B m).1 ▸ h
  | withdraw amt => exact (withdraw_session_fields B H m amt).1 ▸ h
  | deposit amt => exact (deposit_session_fields B H m amt).1 ▸ h
  | eject_card =>
    by_cases he : (H.eject_card m.hw).1 = true <;>
      simp [runOp, ATMController.eject_card, ATMController.reset_state, he, h]
  | cancel_transaction =>
    by_cases he : (H.eject_card m.hw).1 = true <;>
      simp [runOp, ATMController.cancel_transaction, ATMController.eject_card,
        ATMController.reset_state, he, h]

/-- C9: starting from the initial (idle) controller, no sequence of public
calls ever reaches the declared `TRANSACTION_COMPLETED` state, whatever the
ledger and hardware behaviours. -/
theorem transaction_completed_unreachable (β γ : Type) (B : BankOps β)
    (H : HardwareOps γ) (b : β) (g : γ) (ops : List Op) :
    (runOps B H ops (ATMController.init b g)).state ≠
      ATMState.TRANSACTION_COMPLETED := by
  have main : ∀ (l : List Op) (m : ATMController β γ),
      m.state ≠ ATMState.TRANSACTION_COMPLETED →
      (runOps B H l m).state ≠ ATMState.TRANSACTION_COMPLETED := by
    intro l
    induction l with
    | nil => intro m hm; exact hm
    | cons o rest ih =>
      intro m hm
      exact ih (runOp B H o m) (runOp_state_ne_completed B H o m hm)
  exact main ops (ATMController.init b g) (by simp [ATMController.init])

/-- Witness for C9 on a concrete full session trace with the mocks. -/
theorem transaction_completed_unreachable_witness :
    (runOps mockBank mockHardware
      [Op.insert_card "1234567890", Op.enter_pin "1234",
       Op.select_account "1001", Op.check_balance, Op.withdraw 100,
       Op.deposit 100, Op.eject_card]
      (ATMController.init mockBankInit mockHWInit)).state ≠
      ATMState.TRANSACTION_COMPLETED :=
  transaction_completed_unreachable MockBankState MockHWState mockBank
    mockHardware mockBankInit mockHWInit _

end AtmController
